import Mathlib

/-!
Verification of the flywheel state-space model construction of
`WPILibStateSpace` (`frc/system/plant/FlywheelSystem.h`).

The repository provides the declaration
`LinearSystem<1, 1, 1> FlywheelSystem(DCMotor motor, units::kilogram_square_meter_t J, double G);`
its implementation body, the `LinearSystem` container and the `DCMotor`
value type live in headers/translation units that are not among the
provided sources, so those parts are modelled from the specification
(sections 3, 4.1, 4.2 and 7 of the design spec), in exact rational
arithmetic in place of the source's double precision.
-/

namespace WPILibStateSpace

/-- Modelled from the spec: error taxonomy of section 7 — the
`InvalidParameter` condition for out-of-domain physical parameters and the
`DimensionMismatch` condition for matrix shapes disagreeing with the
declared dimensions. Neither error type is defined in the provided
sources. -/
inductive ModelError where
  | InvalidParameter
  | DimensionMismatch
  deriving DecidableEq

/-- A real-valued matrix, represented as its list of rows. Entries are
exact rationals in place of the source's double-precision floats. -/
abbrev Mat := List (List ℚ)

/-- `matShape m r c` holds when `m` has exactly `r` rows, every one of
length `c`. -/
def matShape (m : Mat) (r c : Nat) : Bool :=
  m.length == r && m.all fun row => row.length == c

/-- Elementwise negation of a matrix. -/
def matNeg (m : Mat) : Mat :=
  m.map fun row => row.map Neg.neg

/-- Modelled from the spec: the `DCMotor` value type is included from
`frc/system/plant/DCMotor.h`, which is not among the provided sources.
Section 3 (MotorConstants) lists its fields: nominal voltage, stall
torque, stall current, free speed, free current, internal resistance `R`,
torque constant `Kt` and back-EMF constant `Kb`; immutable, never
mutated. -/
structure DCMotor where
  nominalVoltage : ℚ
  stallTorque : ℚ
  stallCurrent : ℚ
  freeSpeed : ℚ
  freeCurrent : ℚ
  R : ℚ
  Kt : ℚ
  Kb : ℚ
  deriving DecidableEq

/-- Modelled from the spec: the `LinearSystem` container is declared in
`frc/system/LinearSystem.h`, which is not among the provided sources.
Section 3 describes it (as `LinearSystemModel`): an immutable, value
semantic holder of the four matrices A (states×states), B (states×inputs),
C (outputs×states), D (outputs×inputs), with the dimensions fixed at
construction. -/
structure LinearSystem where
  states : Nat
  inputs : Nat
  outputs : Nat
  A : Mat
  B : Mat
  C : Mat
  D : Mat
  deriving DecidableEq

/-- Modelled from the spec: construction of a `LinearSystem` from four
matrices (section 4.1): it fails with a `DimensionMismatch` condition if
any matrix's shape disagrees with the declared state/input/output counts,
and otherwise yields the immutable container. -/
def mkLinearSystem (s i o : Nat) (A B C D : Mat) :
    Except ModelError LinearSystem :=
  if matShape A s s && matShape B s i && matShape C o s && matShape D o i then
    Except.ok ⟨s, i, o, A, B, C, D⟩
  else
    Except.error ModelError.DimensionMismatch

/-- Modelled from the spec: the body of `FlywheelSystem` — declared at
`frc/system/plant/FlywheelSystem.h` lines 28-30 but implemented in a
translation unit not among the provided sources. Per section 4.2 it
validates the physical parameters (`InvalidParameter` when `J ≤ 0` or
`G = 0`, reported synchronously) and otherwise builds the
1-state/1-input/1-output model with
A = -G² · Kt · Kb / (R · J), B = G · Kt / (R · J), C = [1], D = [0]. -/
def FlywheelSystem (motor : DCMotor) (J G : ℚ) :
    Except ModelError LinearSystem :=
  if J ≤ 0 ∨ G = 0 then
    Except.error ModelError.InvalidParameter
  else
    mkLinearSystem 1 1 1
      [[-(G ^ 2) * motor.Kt * motor.Kb / (motor.R * J)]]
      [[G * motor.Kt / (motor.R * J)]]
      [[1]]
      [[0]]

/-- Modelled from the source signature (FlywheelSystem.h lines 28-30):
`FlywheelSystem` receives `motor`, `J` and `G` by value, so a call leaves
the caller's arguments untouched; here the caller's frame is threaded
explicitly next to the result so that the frame condition is expressible. -/
def FlywheelSystemCall (motor : DCMotor) (J G : ℚ) :
    Except ModelError LinearSystem × DCMotor × ℚ × ℚ :=
  (FlywheelSystem motor J G, motor, J, G)

/-- The spec's concrete test motor (section 8): 12 V nominal, R = 0.5 Ω,
Kt = 0.02 N·m/A, Kb = 0.02 V·s/rad, with the datasheet fields filled in
consistently (stall current 24 A, stall torque 0.48 N·m, free speed
600 rad/s, free current 0 A). -/
def testMotor : DCMotor :=
  ⟨12, 12 / 25, 24, 600, 0, 1 / 2, 1 / 50, 1 / 50⟩

/-- The model the builder produces for the spec's concrete scenario
(section 8): `testMotor`, J = 0.001 kg·m², G = 1, giving A = [-0.8],
B = [40], C = [1], D = [0]. -/
def flywheelTestModel : LinearSystem :=
  ⟨1, 1, 1, [[-(4 / 5)]], [[40]], [[1]], [[0]]⟩

/-- On valid parameters the builder returns exactly the model of the
spec's formula; the `DimensionMismatch` branch of `mkLinearSystem` is not
taken because all four matrices are 1×1. -/
theorem FlywheelSystem_eq_ok (motor : DCMotor) (J G : ℚ)
    (h : ¬(J ≤ 0 ∨ G = 0)) :
    FlywheelSystem motor J G = Except.ok
      ⟨1, 1, 1,
        [[-(G ^ 2) * motor.Kt * motor.Kb / (motor.R * J)]],
        [[G * motor.Kt / (motor.R * J)]],
        [[1]], [[0]]⟩ := by
  unfold FlywheelSystem
  rw [if_neg h]
  rfl

/-- On invalid parameters the builder returns exactly the
`InvalidParameter` error. -/
theorem FlywheelSystem_eq_error (motor : DCMotor) (J G : ℚ)
    (h : J ≤ 0 ∨ G = 0) :
    FlywheelSystem motor J G = Except.error ModelError.InvalidParameter := by
  unfold FlywheelSystem
  rw [if_pos h]

/-- C1: for every motor-constants input with R > 0, Kt > 0, Kb > 0 and
every J > 0 and G ≠ 0, the 1×1 state matrix A of the model returned by
`FlywheelSystem` equals -G² · Kt · Kb / (R · J); in the exact rational
model the equality is exact, so it holds within any relative tolerance. -/
theorem FlywheelSystem_A_matrix (motor : DCMotor) (J G : ℚ)
    (hR : 0 < motor.R) (hKt : 0 < motor.Kt) (hKb : 0 < motor.Kb)
    (hJ : 0 < J) (hG : G ≠ 0) :
    ∃ m : LinearSystem, FlywheelSystem motor J G = Except.ok m ∧
      m.A = [[-(G ^ 2) * motor.Kt * motor.Kb / (motor.R * J)]] :=
  ⟨_, FlywheelSystem_eq_ok motor J G (by push_neg; exact ⟨hJ, hG⟩), rfl⟩

/-- Witness for C1 at the spec's concrete scenario: `testMotor`,
J = 0.001, G = 1. -/
theorem FlywheelSystem_A_matrix_witness :
    ∃ m : LinearSystem, FlywheelSystem testMotor (1 / 1000) 1 = Except.ok m ∧
      m.A = [[-((1 : ℚ) ^ 2) * testMotor.Kt * testMotor.Kb /
        (testMotor.R * (1 / 1000))]] :=
  FlywheelSystem_A_matrix testMotor (1 / 1000) 1 (by norm_num [testMotor])
    (by norm_num [testMotor]) (by norm_num [testMotor]) (by norm_num)
    (by norm_num)

/-- C2: for every motor-constants input with R > 0, Kt > 0, Kb > 0 and
every J > 0 and G ≠ 0, the 1×1 input matrix B of the model returned by
`FlywheelSystem` equals G · Kt / (R · J); in the exact rational model the
equality is exact, so it holds within any relative tolerance. -/
theorem FlywheelSystem_B_matrix (motor : DCMotor) (J G : ℚ)
    (hR : 0 < motor.R) (hKt : 0 < motor.Kt) (hKb : 0 < motor.Kb)
    (hJ : 0 < J) (hG : G ≠ 0) :
    ∃ m : LinearSystem, FlywheelSystem motor J G = Except.ok m ∧
      m.B = [[G * motor.Kt / (motor.R * J)]] :=
  ⟨_, FlywheelSystem_eq_ok motor J G (by push_neg; exact ⟨hJ, hG⟩), rfl⟩

/-- Witness for C2 at the spec's concrete scenario: `testMotor`,
J = 0.001, G = 1. -/
theorem FlywheelSystem_B_matrix_witness :
    ∃ m : LinearSystem, FlywheelSystem testMotor (1 / 1000) 1 = Except.ok m ∧
      m.B = [[(1 : ℚ) * testMotor.Kt / (testMotor.R * (1 / 1000))]] :=
  FlywheelSystem_B_matrix testMotor (1 / 1000) 1 (by norm_num [testMotor])
    (by norm_num [testMotor]) (by norm_num [testMotor]) (by norm_num)
    (by norm_num)

/-- C3: for every motor-constants input with R > 0, Kt > 0, Kb > 0 and
every J > 0 and G ≠ 0, the model returned by `FlywheelSystem` has output
matrix C exactly [1] and feedforward matrix D exactly [0]. -/
theorem FlywheelSystem_C_D_matrices (motor : DCMotor) (J G : ℚ)
    (hR : 0 < motor.R) (hKt : 0 < motor.Kt) (hKb : 0 < motor.Kb)
    (hJ : 0 < J) (hG : G ≠ 0) :
    ∃ m : LinearSystem, FlywheelSystem motor J G = Except.ok m ∧
      m.C = [[1]] ∧ m.D = [[0]] :=
  ⟨_, FlywheelSystem_eq_ok motor J G (by push_neg; exact ⟨hJ, hG⟩), rfl, rfl⟩

/-- Witness for C3 at the spec's concrete scenario: `testMotor`,
J = 0.001, G = 1. -/
theorem FlywheelSystem_C_D_matrices_witness :
    ∃ m : LinearSystem, FlywheelSystem testMotor (1 / 1000) 1 = Except.ok m ∧
      m.C = [[1]] ∧ m.D = [[0]] :=
  FlywheelSystem_C_D_matrices testMotor (1 / 1000) 1 (by norm_num [testMotor])
    (by norm_num [testMotor]) (by norm_num [testMotor]) (by norm_num)
    (by norm_num)

/-- C4: `FlywheelSystem` fails with the `InvalidParameter` condition
exactly when J ≤ 0 or G = 0, reported synchronously as the call's
result. -/
theorem FlywheelSystem_invalidParameter_iff (motor : DCMotor) (J G : ℚ) :
    FlywheelSystem motor J G = Except.error ModelError.InvalidParameter ↔
      J ≤ 0 ∨ G = 0 := by
  constructor
  · intro h
    by_contra hc
    rw [FlywheelSystem_eq_ok motor J G hc] at h
    simp at h
  · exact FlywheelSystem_eq_error motor J G

/-- Witness for C4: at `testMotor`, J = 0, G = 1 the call reports
`InvalidParameter`. -/
theorem FlywheelSystem_invalidParameter_iff_witness :
    FlywheelSystem testMotor 0 1 = Except.error ModelError.InvalidParameter :=
  (FlywheelSystem_invalidParameter_iff testMotor 0 1).mpr (Or.inl le_rfl)

/-- C5: for every valid motor-constants input, J > 0 and G > 0, calling
`FlywheelSystem` with gear ratio -G succeeds, the resulting B matrix is
the negation of the B matrix for +G, and the A matrix is identical. -/
theorem FlywheelSystem_negated_G (motor : DCMotor) (J G : ℚ)
    (hR : 0 < motor.R) (hKt : 0 < motor.Kt) (hKb : 0 < motor.Kb)
    (hJ : 0 < J) (hG : 0 < G) :
    ∃ mp mn : LinearSystem,
      FlywheelSystem motor J G = Except.ok mp ∧
      FlywheelSystem motor J (-G) = Except.ok mn ∧
      mn.A = mp.A ∧ mn.B = matNeg mp.B := by
  refine ⟨_, _,
    FlywheelSystem_eq_ok motor J G (by push_neg; exact ⟨hJ, hG.ne'⟩),
    FlywheelSystem_eq_ok motor J (-G)
      (by push_neg; exact ⟨hJ, neg_ne_zero.mpr hG.ne'⟩), ?_, ?_⟩
  · rw [neg_sq]
  · show [[-G * motor.Kt / (motor.R * J)]]
      = matNeg [[G * motor.Kt / (motor.R * J)]]
    unfold matNeg
    simp [neg_div]

/-- Witness for C5 at the spec's concrete scenario: `testMotor`,
J = 0.001, G = 2. -/
theorem FlywheelSystem_negated_G_witness :
    ∃ mp mn : LinearSystem,
      FlywheelSystem testMotor (1 / 1000) 2 = Except.ok mp ∧
      FlywheelSystem testMotor (1 / 1000) (-2) = Except.ok mn ∧
      mn.A = mp.A ∧ mn.B = matNeg mp.B :=
  FlywheelSystem_negated_G testMotor (1 / 1000) 2 (by norm_num [testMotor])
    (by norm_num [testMotor]) (by norm_num [testMotor]) (by norm_num)
    (by norm_num)

/-- C6: `FlywheelSystem` is deterministic — two calls with identical
motor constants, J and G return identical matrices; in the pure
functional model the call has no side effects by construction. -/
theorem FlywheelSystem_deterministic (m₁ m₂ : DCMotor) (J₁ J₂ G₁ G₂ : ℚ)
    (hm : m₁ = m₂) (hJ : J₁ = J₂) (hG : G₁ = G₂) :
    FlywheelSystem m₁ J₁ G₁ = FlywheelSystem m₂ J₂ G₂ := by
  rw [hm, hJ, hG]

/-- Witness for C6: two calls at `testMotor`, J = 0.001, G = 1 agree. -/
theorem FlywheelSystem_deterministic_witness :
    FlywheelSystem testMotor (1 / 1000) 1
      = FlywheelSystem testMotor (1 / 1000) 1 :=
  FlywheelSystem_deterministic testMotor testMotor (1 / 1000) (1 / 1000) 1 1
    rfl rfl rfl

/-- C7: every model `FlywheelSystem` returns has exactly 1 state, 1 input
and 1 output, and each of A, B, C, D is a 1×1 matrix; the dimensions are
fields fixed at construction of the immutable `LinearSystem` value. -/
theorem FlywheelSystem_dimensions (motor : DCMotor) (J G : ℚ)
    (m : LinearSystem) (h : FlywheelSystem motor J G = Except.ok m) :
    m.states = 1 ∧ m.inputs = 1 ∧ m.outputs = 1 ∧
      matShape m.A 1 1 = true ∧ matShape m.B 1 1 = true ∧
      matShape m.C 1 1 = true ∧ matShape m.D 1 1 = true := by
  by_cases hc : J ≤ 0 ∨ G = 0
  · rw [FlywheelSystem_eq_error motor J G hc] at h
    simp at h
  · rw [FlywheelSystem_eq_ok motor J G hc] at h
    injection h with h
    subst h
    exact ⟨rfl, rfl, rfl, rfl, rfl, rfl, rfl⟩

/-- Witness for C7 at the spec's concrete scenario, whose result is
`flywheelTestModel`. -/
theorem FlywheelSystem_dimensions_witness :
    flywheelTestModel.states = 1 ∧ flywheelTestModel.inputs = 1 ∧
      flywheelTestModel.outputs = 1 ∧
      matShape flywheelTestModel.A 1 1 = true ∧
      matShape flywheelTestModel.B 1 1 = true ∧
      matShape flywheelTestModel.C 1 1 = true ∧
      matShape flywheelTestModel.D 1 1 = true :=
  FlywheelSystem_dimensions testMotor (1 / 1000) 1 flywheelTestModel (by
    rw [FlywheelSystem_eq_ok testMotor (1 / 1000) 1 (by norm_num)]
    norm_num [testMotor, flywheelTestModel])

/-- C8: construction is atomic on error — for every invalid input
(J ≤ 0 or G = 0) the call yields only the `InvalidParameter` error and
never a `LinearSystem` value, partial, default or otherwise. -/
theorem FlywheelSystem_error_atomic (motor : DCMotor) (J G : ℚ)
    (h : J ≤ 0 ∨ G = 0) :
    FlywheelSystem motor J G = Except.error ModelError.InvalidParameter ∧
      ∀ m : LinearSystem, FlywheelSystem motor J G ≠ Except.ok m := by
  have he := FlywheelSystem_eq_error motor J G h
  refine ⟨he, fun m hm => ?_⟩
  rw [he] at hm
  simp at hm

/-- Witness for C8: at `testMotor`, J = 0.001, G = 0 the call yields only
the error. -/
theorem FlywheelSystem_error_atomic_witness :
    FlywheelSystem testMotor (1 / 1000) 0
      = Except.error ModelError.InvalidParameter :=
  (FlywheelSystem_error_atomic testMotor (1 / 1000) 0 (Or.inr rfl)).1

/-- C9: `mkLinearSystem` fails with `DimensionMismatch` exactly when some
matrix's shape disagrees with the declared state/input/output counts, and
no call of `FlywheelSystem` ever reaches that error — its matrices are
always 1×1. -/
theorem mkLinearSystem_dimensionMismatch_iff :
    (∀ (s i o : Nat) (A B C D : Mat),
      mkLinearSystem s i o A B C D
          = Except.error ModelError.DimensionMismatch ↔
        ¬(matShape A s s && matShape B s i && matShape C o s
            && matShape D o i) = true)
    ∧ ∀ (motor : DCMotor) (J G : ℚ),
        FlywheelSystem motor J G
          ≠ Except.error ModelError.DimensionMismatch := by
  constructor
  · intro s i o A B C D
    unfold mkLinearSystem
    by_cases hc : (matShape A s s && matShape B s i && matShape C o s
        && matShape D o i) = true
    · rw [if_pos hc]
      simp [hc]
    · rw [if_neg hc]
      simp [hc]
  · intro motor J G
    by_cases hc : J ≤ 0 ∨ G = 0
    · rw [FlywheelSystem_eq_error motor J G hc]
      simp
    · rw [FlywheelSystem_eq_ok motor J G hc]
      simp

/-- Witness for C9: at `testMotor`, J = 0.001, G = 1 the builder does not
report `DimensionMismatch`. -/
theorem mkLinearSystem_dimensionMismatch_iff_witness :
    FlywheelSystem testMotor (1 / 1000) 1
      ≠ Except.error ModelError.DimensionMismatch :=
  mkLinearSystem_dimensionMismatch_iff.2 testMotor (1 / 1000) 1

/-- C10: the call receives motor, J and G by value, so the caller's
arguments are unchanged after the call, whether it succeeds or fails. -/
theorem FlywheelSystemCall_frame (motor : DCMotor) (J G : ℚ) :
    (FlywheelSystemCall motor J G).2 = (motor, J, G) :=
  rfl

/-- Witness for C10 at `testMotor`, J = 0.001, G = 1 (and the frame is
equally untouched on a failing call, by the same theorem at any input). -/
theorem FlywheelSystemCall_frame_witness :
    (FlywheelSystemCall testMotor (1 / 1000) 1).2 = (testMotor, 1 / 1000, 1) :=
  FlywheelSystemCall_frame testMotor (1 / 1000) 1

end WPILibStateSpace
